import Mathlib

/-!
Verification of the ECCBC MCP server adapter (`eccbc_mcp_server.py`).

The adapter translates tool invocations and resource reads into single HTTP
calls against a fixed backend base URL and wraps the outcome in a uniform
result envelope.  We embed the dispatch layer (`handle_call_tool`,
`handle_read_resource`), the five tool handlers, and the catalog rendering as
pure Lean functions over a model of decoded JSON values; the backend is a
parameter mapping each HTTP request to an outcome, and every request a handler
issues is returned alongside its result so that "no network call" properties
can be stated.  Python exceptions are modelled with `Except`: each raise site
produces an `.error`, and each `try/except` in the source converts it back to
a value.
-/

/-- A decoded JSON value (also used for the Python values that the MCP layer
passes as tool arguments; Python `None` is `null`).  Numbers are modelled as
integers: no claim depends on fractional values. -/
inductive JValue where
  | null : JValue
  | bool : Bool → JValue
  | num : Int → JValue
  | str : String → JValue
  | arr : List JValue → JValue
  | obj : List (String × JValue) → JValue

/-- Escape a string for inclusion in a JSON document (quote, backslash and
newline; `json.dumps(..., ensure_ascii=False)` leaves other characters as
they are). -/
def jsonEscape (s : String) : String :=
  s.foldl (fun acc c =>
    acc ++ (if c = '"' then "\\\"" else if c = '\\' then "\\\\"
            else if c = '\n' then "\\n" else String.singleton c)) ""

/-- A JSON string literal. -/
def jsonQuote (s : String) : String :=
  "\"" ++ jsonEscape s ++ "\""

mutual

/-- Serialization of a JSON value, modelling `json.dumps` on the value
(whitespace/indentation is abstracted; the claims never compare the rendered
text of two different values). -/
def jsonDumps : JValue → String
  | .null => "null"
  | .bool true => "true"
  | .bool false => "false"
  | .num n => toString n
  | .str s => jsonQuote s
  | .arr xs => "[" ++ jsonDumpsList xs ++ "]"
  | .obj fs => "\x7b" ++ jsonDumpsFields fs ++ "\x7d"

/-- Comma-separated serialization of the elements of a JSON array. -/
def jsonDumpsList : List JValue → String
  | [] => ""
  | [x] => jsonDumps x
  | x :: y :: xs => jsonDumps x ++ ", " ++ jsonDumpsList (y :: xs)

/-- Comma-separated serialization of the fields of a JSON object. -/
def jsonDumpsFields : List (String × JValue) → String
  | [] => ""
  | [(k, v)] => jsonQuote k ++ ": " ++ jsonDumps v
  | (k, v) :: f :: fs =>
      jsonQuote k ++ ": " ++ jsonDumps v ++ ", " ++ jsonDumpsFields (f :: fs)

end

/-- Python `str()` of a decoded JSON value, as interpolated into the f-strings
that build URL paths.  Scalars follow CPython (`None` renders as `"None"`,
booleans capitalized); for containers CPython uses `repr`, which we abstract
by the JSON rendering — no claim interpolates a container into a URL. -/
def pyStr : JValue → String
  | .null => "None"
  | .bool true => "True"
  | .bool false => "False"
  | .num n => toString n
  | .str s => s
  | v => jsonDumps v

/-- Python's `dict.get(key, default)` on a decoded JSON object / argument
mapping (first binding wins, as dict keys are unique). -/
def pyGet (fields : List (String × JValue)) (key : String) (default : JValue) :
    JValue :=
  match fields.lookup key with
  | some v => v
  | none => default

/-- Python `len()` on a decoded JSON value: defined for strings, lists and
dicts, a `TypeError` (here: `none`) for `None`, booleans and numbers. -/
def pyLen : JValue → Option Nat
  | .str s => some s.length
  | .arr xs => some xs.length
  | .obj fs => some fs.length
  | _ => none

/-- The Python type name of a decoded JSON value, as it appears in
`TypeError`/`AttributeError` messages. -/
def pyTypeName : JValue → String
  | .null => "NoneType"
  | .bool _ => "bool"
  | .num _ => "int"
  | .str _ => "str"
  | .arr _ => "list"
  | .obj _ => "dict"

/-- Python truthiness of a decoded JSON value. -/
def pyTruthy : JValue → Bool
  | .null => false
  | .bool b => b
  | .num n => n != 0
  | .str s => s.length != 0
  | .arr xs => !xs.isEmpty
  | .obj fs => !fs.isEmpty

/-- Python subscription `v[key]` on a decoded JSON value: a `KeyError` for a
missing key, a `TypeError` for a non-dict. -/
def pyIndex (v : JValue) (key : String) : Except String JValue :=
  match v with
  | .obj fields =>
    match fields.lookup key with
    | some x => .ok x
    | none => .error ("KeyError: " ++ key)
  | w => .error (pyTypeName w ++ " object is not subscriptable")

/-- Python iteration over a decoded JSON value: lists yield their elements,
strings their characters, dicts their keys; other values raise `TypeError`. -/
def pyIter : JValue → Except String (List JValue)
  | .arr xs => .ok xs
  | .str s => .ok (s.data.map (fun c => .str (String.singleton c)))
  | .obj fs => .ok (fs.map (fun f => .str f.1))
  | v => .error (pyTypeName v ++ " object is not iterable")

/-- An outbound HTTP request as built by a handler: method, the URL produced
by f-string interpolation, the query parameters passed to the client, and the
JSON body for POST requests. -/
structure HttpRequest where
  method : String
  url : String
  params : List (String × JValue)
  body : Option JValue

/-- The backend's reaction to one request: either an HTTP response (status
plus the result of decoding its body as JSON, `.error` when the body is
malformed) or a transport-level exception (connection refused, timeout, …)
carrying its message. -/
inductive HttpOutcome where
  | resp : Nat → Except String JValue → HttpOutcome
  | exn : String → HttpOutcome

/-- The environment the adapter runs against: what the backend does with each
request. -/
def Backend : Type := HttpRequest → HttpOutcome

/-- The hardcoded backend base URL (`API_BASE_URL`). -/
def API_BASE_URL : String := "http://n8n.xandys.xyz:8000"

/-- Whether a status code is a 2xx success; `httpx.Response.raise_for_status`
raises `HTTPStatusError` exactly when this is false. -/
def is2xx (status : Nat) : Bool := 200 ≤ status && status < 300

/-- The class label occurring in an `httpx.HTTPStatusError` message. -/
def statusClassLabel (status : Nat) : String :=
  if status < 200 then "Informational response"
  else if status < 300 then "Success"
  else if status < 400 then "Redirect response"
  else if status < 500 then "Client error"
  else "Server error"

/-- `str()` of the `HTTPStatusError` raised by `raise_for_status`, modelling
the message httpx builds from the status class, code and URL. -/
def statusErrorMsg (status : Nat) (url : String) : String :=
  statusClassLabel status ++ " " ++ toString status ++ " for url " ++ url

/-- The shared request/response step of every handler: issue the request,
`raise_for_status`, then `response.json()`.  An `.error` is the message of the
exception the corresponding Python code raises. -/
def httpFetch (backend : Backend) (req : HttpRequest) : Except String JValue :=
  match backend req with
  | .exn msg => .error msg
  | .resp status body =>
      if is2xx status then body else .error (statusErrorMsg status req.url)

/-- The failure envelope `{"success": False, "error": str(e)}` every handler
builds in its `except` clause. -/
def errEnv (msg : String) : JValue :=
  .obj [("success", .bool false), ("error", .str msg)]

/-- `len(products) if isinstance(products, list) else 0`. -/
def listCount : JValue → Int
  | .arr xs => xs.length
  | _ => 0

/-- `_search_products`: GET `/api/products/search/{search_term}` with a
`language` query parameter; on success wraps the decoded body with a count,
echoing the search term and language; any exception becomes a failure
envelope.  Returns the envelope together with the single request issued. -/
def _search_products (backend : Backend) (search_term language : JValue) :
    JValue × List HttpRequest :=
  let req : HttpRequest :=
    ⟨"GET", API_BASE_URL ++ "/api/products/search/" ++ pyStr search_term,
      [("language", language)], none⟩
  let env := match httpFetch backend req with
    | .error e => errEnv e
    | .ok products =>
        .obj [("success", .bool true), ("products", products),
              ("count", .num (listCount products)),
              ("search_term", search_term), ("language", language)]
  (env, [req])

/-- `_check_stock`: GET `/api/stock/check/{product_id}` with a `language`
query parameter; on success wraps the decoded body as `stock`. -/
def _check_stock (backend : Backend) (product_id language : JValue) :
    JValue × List HttpRequest :=
  let req : HttpRequest :=
    ⟨"GET", API_BASE_URL ++ "/api/stock/check/" ++ pyStr product_id,
      [("language", language)], none⟩
  let env := match httpFetch backend req with
    | .error e => errEnv e
    | .ok stock => .obj [("success", .bool true), ("stock", stock)]
  (env, [req])

/-- `_get_all_products`: GET `/api/products` with an `active_only` query
parameter; on success wraps the decoded body with `len(products)` — which
raises `TypeError` (caught into a failure envelope) when the body has no
length. -/
def _get_all_products (backend : Backend) (active_only : JValue) :
    JValue × List HttpRequest :=
  let req : HttpRequest :=
    ⟨"GET", API_BASE_URL ++ "/api/products", [("active_only", active_only)],
      none⟩
  let env := match httpFetch backend req with
    | .error e => errEnv e
    | .ok products =>
        match pyLen products with
        | some n =>
            .obj [("success", .bool true), ("products", products),
                  ("count", .num n)]
        | none =>
            errEnv ("object of type " ++ pyTypeName products ++
              " has no len()")
  (env, [req])

/-- `_create_order`: POST `/api/orders` with the full argument mapping as the
JSON body; on success wraps the decoded body as `order`. -/
def _create_order (backend : Backend) (arguments : List (String × JValue)) :
    JValue × List HttpRequest :=
  let req : HttpRequest :=
    ⟨"POST", API_BASE_URL ++ "/api/orders", [], some (.obj arguments)⟩
  let env := match httpFetch backend req with
    | .error e => errEnv e
    | .ok order => .obj [("success", .bool true), ("order", order)]
  (env, [req])

/-- `_get_customer_history`: GET `/api/orders/{customer_phone}` with a
`limit` query parameter; on success wraps the decoded body as `orders`. -/
def _get_customer_history (backend : Backend) (customer_phone limit : JValue) :
    JValue × List HttpRequest :=
  let req : HttpRequest :=
    ⟨"GET", API_BASE_URL ++ "/api/orders/" ++ pyStr customer_phone,
      [("limit", limit)], none⟩
  let env := match httpFetch backend req with
    | .error e => errEnv e
    | .ok orders => .obj [("success", .bool true), ("orders", orders)]
  (env, [req])

/-- The five registered tool names, in dispatch order. -/
def toolNames : List String :=
  ["search_products", "check_stock", "get_all_products", "create_order",
   "get_customer_history"]

/-- The body of `handle_call_tool`'s `try` block: dispatch on the tool name,
reading arguments with `.get` (missing values become `None`, `language`
defaults to `"fr"`, `active_only` to `True`, `limit` to `10`); an
unrecognized name raises `ValueError` (the `.error` case).  The second
component lists the HTTP requests issued while handling the call. -/
def callToolBody (backend : Backend) (name : String)
    (arguments : List (String × JValue)) :
    Except String JValue × List HttpRequest :=
  if name = "search_products" then
    let r := _search_products backend (pyGet arguments "search_term" .null)
      (pyGet arguments "language" (.str "fr"))
    (.ok r.1, r.2)
  else if name = "check_stock" then
    let r := _check_stock backend (pyGet arguments "product_id" .null)
      (pyGet arguments "language" (.str "fr"))
    (.ok r.1, r.2)
  else if name = "get_all_products" then
    let r := _get_all_products backend (pyGet arguments "active_only" (.bool true))
    (.ok r.1, r.2)
  else if name = "create_order" then
    let r := _create_order backend arguments
    (.ok r.1, r.2)
  else if name = "get_customer_history" then
    let r := _get_customer_history backend (pyGet arguments "customer_phone" .null)
      (pyGet arguments "limit" (.num 10))
    (.ok r.1, r.2)
  else (.error ("Tool inconnu: " ++ name), [])

/-- One `TextContent(type="text", text=...)` item of a tool-call reply. -/
structure TextContent where
  type : String
  text : String

/-- The envelope `handle_call_tool` serializes: the handler's result dict on
the normal path, `{"error": str(e)}` when the `try` block raised. -/
def callToolRawEnvelope (backend : Backend) (name : String)
    (arguments : List (String × JValue)) : JValue :=
  match (callToolBody backend name arguments).1 with
  | .ok result => result
  | .error e => .obj [("error", .str e)]

/-- `handle_call_tool`: run the dispatch body under the boundary
`try/except`, and return a single text content holding the JSON-encoded
envelope, together with the requests issued. -/
def handle_call_tool (backend : Backend) (name : String)
    (arguments : List (String × JValue)) :
    List TextContent × List HttpRequest :=
  ([⟨"text", jsonDumps (callToolRawEnvelope backend name arguments)⟩],
    (callToolBody backend name arguments).2)

/-- One iteration of the catalog-rendering loop: the block of lines appended
for one product.  A non-dict element raises `AttributeError` at
`product.get` (the `.error` case). -/
def renderProduct (product : JValue) : Except String String :=
  match product with
  | .obj fields =>
      .ok ("• " ++ pyStr (pyGet fields "name" (.str "N/A")) ++ " (Code: " ++
        pyStr (pyGet fields "code" (.str "N/A")) ++ ")\n" ++
        (if pyTruthy (pyGet fields "name_ar" .null) then
          "  العربية: " ++ pyStr (pyGet fields "name_ar" .null) ++ "\n"
        else "") ++
        "  Prix: " ++ pyStr (pyGet fields "price" (.num 0)) ++ " MAD\n" ++
        "  Stock: " ++ pyStr (pyGet fields "available_quantity" (.num 0)) ++
        " " ++ pyStr (pyGet fields "unit_type" (.str "unités")) ++ "\n" ++
        "  Format: " ++ pyStr (pyGet fields "unit_size" (.str "Standard")) ++
        "\n\n")
  | v => .error (pyTypeName v ++ " object has no attribute get")

/-- The catalog-rendering loop over the fetched products, concatenating the
per-product blocks; the first raising iteration aborts the loop. -/
def renderItems : List JValue → Except String String
  | [] => .ok ""
  | p :: ps => do
      let s ← renderProduct p
      let rest ← renderItems ps
      .ok (s ++ rest)

/-- The body of `_get_catalog_resource`'s `try` block after the fetch: check
`result["success"]` (returning a French error line when falsy), then iterate
`result["products"]` rendering each product under the catalog header.  An
`.error` is an exception escaping to the handler's `except` clause. -/
def catalogBody (result : JValue) : Except String String := do
  let succ ← pyIndex result "success"
  if pyTruthy succ then do
    let products ← pyIndex result "products"
    let items ← pyIter products
    let body ← renderItems items
    .ok ("=== CATALOGUE ECCBC ===\n\n" ++ body)
  else
    .ok "Erreur: Impossible de récupérer le catalogue"

/-- `_get_catalog_resource`: fetch all products (with the default
`active_only=True`), render the catalog, and convert any exception into the
string `"Erreur catalogue: <message>"` instead of raising. -/
def _get_catalog_resource (backend : Backend) : String × List HttpRequest :=
  let r := _get_all_products backend (.bool true)
  let s := match catalogBody r.1 with
    | .ok s => s
    | .error e => "Erreur catalogue: " ++ e
  (s, r.2)

/-- `_get_darija_resource`: the static Darija expression guide. -/
def _get_darija_resource : String :=
  "=== GUIDE DARIJA ECCBC ===\n\nPRODUITS:\n• كوكا / كوكا كولا = Coca-Cola  \n• فانتا = Fanta\n• سبرايت = Sprite\n• الحمرا = La rouge (Coca-Cola)\n• الصفرا = La jaune (Fanta citron)\n• البرتقالية = L\u0027orange (Fanta orange)\n\nQUANTITÉS:\n• واحد=1, جوج=2, تلاتة=3, ربعة=4, خمسة=5\n• ستة=6, سبعة=7, تمنية=8, تسعة=9, عشرة=10\n• صندوق/صناديق = caisse(s)\n\nEXPRESSIONS:\n• بغيت = Je veux\n• عطيني = Donne-moi  \n• شحال = Combien\n• كاين = Disponible\n• واش كاين = Est-ce qu\u0027il y a\n• بزاف = Beaucoup\n• شوية = Un peu\n"

/-- `_get_context_resource`: the static business-context text. -/
def _get_context_resource : String :=
  "=== CONTEXTE ECCBC ===\n\nMISSION: B2B embouteilleur Coca-Cola Maroc\n- Vente aux commerçants via WhatsApp\n- Support multilingue (FR/AR/EN)\n- Livraison 24-48h partout au Maroc\n\nPROCESSUS:\n1. Client exprime besoin librement\n2. Clarification si nécessaire  \n3. Vérification stock temps réel\n4. Confirmation prix/délai\n5. Création commande automatique\n\nUNITÉS: Caisses de 6/12/24, Prix en MAD\nFORMATS: 33cl, 50cl, 1L, 1.5L\n\nTONE: Professionnel, chaleureux, respecter langue client\n"

/-- `isinstance(products, list)` on a decoded JSON value. -/
def isList : JValue → Bool
  | .arr _ => true
  | _ => false

/-- The three registered resource URIs, in dispatch order. -/
def resourceUris : List String :=
  ["eccbc://catalog", "eccbc://darija", "eccbc://context"]

/-- `handle_read_resource`: dispatch on the URI; the catalog performs a live
fetch, the other two return static text and issue no request; an
unrecognized URI raises `ValueError` (the `.error` case). -/
def handle_read_resource (backend : Backend) (uri : String) :
    Except String String × List HttpRequest :=
  if uri = "eccbc://catalog" then
    let r := _get_catalog_resource backend
    (.ok r.1, r.2)
  else if uri = "eccbc://darija" then (.ok _get_darija_resource, [])
  else if uri = "eccbc://context" then (.ok _get_context_resource, [])
  else (.error ("Ressource inconnue: " ++ uri), [])

/-- The status-class label of an `HTTPStatusError` message is never empty. -/
theorem statusClassLabel_length_pos (status : Nat) :
    0 < (statusClassLabel status).length := by
  unfold statusClassLabel
  repeat' split
  all_goals decide

/-- The message of an `HTTPStatusError` is never the empty string. -/
theorem statusErrorMsg_ne_empty (status : Nat) (url : String) :
    statusErrorMsg status url ≠ "" := by
  have h := statusClassLabel_length_pos status
  intro he
  have h2 : (statusErrorMsg status url).length = 0 := by rw [he]; rfl
  rw [statusErrorMsg] at h2
  simp [String.length_append] at h2
  omega

/-- A value that is not a list has `listCount` zero. -/
theorem listCount_of_not_list {v : JValue} (h : isList v = false) :
    listCount v = 0 := by
  cases v <;> simp_all [isList, listCount]

/-- Claim C1: for every tool name (registered or not) and every argument
mapping, `handle_call_tool` returns a one-element text payload containing a
JSON-encoded envelope; every exception raised by a handler or by the
unknown-name branch is caught at the dispatch boundary, so the call never
raises — in the embedding, `callToolBody`'s `.error` outcomes are also mapped
to a serialized envelope. -/
theorem call_tool_always_single_text_envelope (backend : Backend)
    (name : String) (arguments : List (String × JValue)) :
    ∃ env : JValue, (handle_call_tool backend name arguments).1 =
      [TextContent.mk "text" (jsonDumps env)] :=
  ⟨callToolRawEnvelope backend name arguments, rfl⟩

/-- Claim C3, counterexample: invoking the unregistered name `"delete_all"`
makes the dispatch boundary return the envelope `{"error": ...}`, which has
no `success` field at all — so not every envelope returned by the tool-call
dispatch carries a boolean `success` discriminator. -/
theorem call_tool_envelope_missing_success_field :
    callToolRawEnvelope (fun _ => HttpOutcome.exn "down") "delete_all" [] =
      JValue.obj [("error", JValue.str "Tool inconnu: delete_all")] ∧
    [("error", JValue.str "Tool inconnu: delete_all")].lookup "success" =
      none := by
  exact ⟨rfl, rfl⟩

/-- Claim C3, amended: every envelope produced for one of the five registered
tool names contains a boolean `success` field discriminating its shape —
either it is exactly the failure envelope `{"success": false, "error": msg}`,
or it starts with `"success": true` and contains no `error` field; envelopes
produced at the dispatch boundary for unregistered names (or other dispatch
exceptions) are `{"error": msg}` without a `success` field. -/
theorem call_tool_known_tool_envelope_discriminated (backend : Backend)
    (name : String) (arguments : List (String × JValue))
    (hname : name ∈ toolNames) :
    (∃ msg, callToolRawEnvelope backend name arguments = errEnv msg) ∨
    (∃ rest, callToolRawEnvelope backend name arguments =
        JValue.obj (("success", JValue.bool true) :: rest) ∧
      rest.lookup "error" = none ∧ rest.lookup "success" = none) := by
  simp only [toolNames, List.mem_cons, List.not_mem_nil, or_false] at hname
  rcases hname with h | h | h | h | h <;> subst h
  · rcases hf : httpFetch backend ⟨"GET", API_BASE_URL ++
        "/api/products/search/" ++ pyStr (pyGet arguments "search_term" JValue.null),
        [("language", pyGet arguments "language" (JValue.str "fr"))], none⟩
      with e | v
    · exact Or.inl ⟨e, by
        simp [callToolRawEnvelope, callToolBody, _search_products, hf]⟩
    · refine Or.inr ⟨[("products", v), ("count", JValue.num (listCount v)),
        ("search_term", pyGet arguments "search_term" JValue.null),
        ("language", pyGet arguments "language" (JValue.str "fr"))], ?_, rfl, rfl⟩
      simp [callToolRawEnvelope, callToolBody, _search_products, hf]
  · rcases hf : httpFetch backend ⟨"GET", API_BASE_URL ++
        "/api/stock/check/" ++ pyStr (pyGet arguments "product_id" JValue.null),
        [("language", pyGet arguments "language" (JValue.str "fr"))], none⟩
      with e | v
    · exact Or.inl ⟨e, by
        simp [callToolRawEnvelope, callToolBody, _check_stock, hf]⟩
    · exact Or.inr ⟨[("stock", v)], by
        simp [callToolRawEnvelope, callToolBody, _check_stock, hf], rfl, rfl⟩
  · rcases hf : httpFetch backend ⟨"GET", API_BASE_URL ++ "/api/products",
        [("active_only", pyGet arguments "active_only" (JValue.bool true))], none⟩
      with e | v
    · exact Or.inl ⟨e, by
        simp [callToolRawEnvelope, callToolBody, _get_all_products, hf]⟩
    · rcases hl : pyLen v with _ | n
      · exact Or.inl ⟨"object of type " ++ pyTypeName v ++ " has no len()", by
          simp [callToolRawEnvelope, callToolBody, _get_all_products, hf, hl]⟩
      · exact Or.inr ⟨[("products", v), ("count", JValue.num n)], by
          simp [callToolRawEnvelope, callToolBody, _get_all_products, hf, hl],
          rfl, rfl⟩
  · rcases hf : httpFetch backend ⟨"POST", API_BASE_URL ++ "/api/orders",
        [], some (JValue.obj arguments)⟩ with e | v
    · exact Or.inl ⟨e, by
        simp [callToolRawEnvelope, callToolBody, _create_order, hf]⟩
    · exact Or.inr ⟨[("order", v)], by
        simp [callToolRawEnvelope, callToolBody, _create_order, hf], rfl, rfl⟩
  · rcases hf : httpFetch backend ⟨"GET", API_BASE_URL ++
        "/api/orders/" ++ pyStr (pyGet arguments "customer_phone" JValue.null),
        [("limit", pyGet arguments "limit" (JValue.num 10))], none⟩
      with e | v
    · exact Or.inl ⟨e, by
        simp [callToolRawEnvelope, callToolBody, _get_customer_history, hf]⟩
    · exact Or.inr ⟨[("orders", v)], by
        simp [callToolRawEnvelope, callToolBody, _get_customer_history, hf],
        rfl, rfl⟩

/-- Claim C3, amended, witness: a concrete successful `check_stock` call
lands in the `success = true` branch of the discrimination. -/
theorem call_tool_known_tool_envelope_discriminated_witness :
    (∃ msg, callToolRawEnvelope
        (fun _ => HttpOutcome.resp 200 (.ok (JValue.num 5)))
        "check_stock" [("product_id", JValue.num 1)] = errEnv msg) ∨
    (∃ rest, callToolRawEnvelope
        (fun _ => HttpOutcome.resp 200 (.ok (JValue.num 5)))
        "check_stock" [("product_id", JValue.num 1)] =
        JValue.obj (("success", JValue.bool true) :: rest) ∧
      rest.lookup "error" = none ∧ rest.lookup "success" = none) :=
  call_tool_known_tool_envelope_discriminated
    (fun _ => HttpOutcome.resp 200 (.ok (JValue.num 5)))
    "check_stock" [("product_id", JValue.num 1)] (by simp [toolNames])

/-- Claim C4: an unregistered tool name yields the error envelope naming the
unknown tool (`Tool inconnu: <name>`), and no HTTP request is issued. -/
theorem call_tool_unknown_name_rejected_without_request (backend : Backend)
    (name : String) (arguments : List (String × JValue))
    (h : name ∉ toolNames) :
    handle_call_tool backend name arguments =
      ([TextContent.mk "text"
        (jsonDumps (JValue.obj [("error",
          JValue.str ("Tool inconnu: " ++ name))]))], []) := by
  simp only [toolNames, List.mem_cons, List.not_mem_nil, or_false,
    not_or] at h
  obtain ⟨h1, h2, h3, h4, h5⟩ := h
  simp [handle_call_tool, callToolRawEnvelope, callToolBody, h1, h2, h3, h4, h5]

/-- Claim C4, witness: the unregistered name `"delete_all"` is rejected with
the unknown-tool envelope and an empty request trace. -/
theorem call_tool_unknown_name_rejected_without_request_witness :
    handle_call_tool (fun _ => HttpOutcome.resp 200 (.ok JValue.null))
      "delete_all" [] =
      ([TextContent.mk "text"
        (jsonDumps (JValue.obj [("error",
          JValue.str ("Tool inconnu: " ++ "delete_all"))]))], []) :=
  call_tool_unknown_name_rejected_without_request
    (fun _ => HttpOutcome.resp 200 (.ok JValue.null)) "delete_all" []
    (by decide)

/-- Claim C6: reading any URI outside the three registered ones raises the
`Ressource inconnue` error — no branch returns normally for an unrecognized
URI, and no HTTP request is issued. -/
theorem read_resource_unknown_uri_rejected_without_request
    (backend : Backend) (uri : String) (h : uri ∉ resourceUris) :
    handle_read_resource backend uri =
      (.error ("Ressource inconnue: " ++ uri), []) := by
  simp only [resourceUris, List.mem_cons, List.not_mem_nil, or_false,
    not_or] at h
  obtain ⟨h1, h2, h3⟩ := h
  simp [handle_read_resource, h1, h2, h3]

/-- Claim C6, witness: the unregistered URI `eccbc://orders` is rejected. -/
theorem read_resource_unknown_uri_rejected_without_request_witness :
    handle_read_resource (fun _ => HttpOutcome.resp 200 (.ok JValue.null))
      "eccbc://orders" =
      (.error ("Ressource inconnue: " ++ "eccbc://orders"), []) :=
  read_resource_unknown_uri_rejected_without_request
    (fun _ => HttpOutcome.resp 200 (.ok JValue.null)) "eccbc://orders"
    (by decide)

/-- Claim C8: reading `eccbc://darija` or `eccbc://context` returns the same
static text whatever the backend does (so any two calls, against any two
backend states, agree) and issues no HTTP request. -/
theorem darija_context_resources_static_no_request
    (backend backend2 : Backend) :
    handle_read_resource backend "eccbc://darija" =
      (.ok _get_darija_resource, []) ∧
    handle_read_resource backend "eccbc://context" =
      (.ok _get_context_resource, []) ∧
    handle_read_resource backend "eccbc://darija" =
      handle_read_resource backend2 "eccbc://darija" ∧
    handle_read_resource backend "eccbc://context" =
      handle_read_resource backend2 "eccbc://context" :=
  ⟨rfl, rfl, rfl, rfl⟩

/-- Claim C2: for each of the five tool names, a backend answering every
request with a non-2xx status makes the call yield the failure envelope
`{"success": false, "error": <non-empty string>}`; no error escapes the
handler (the envelope is on `callToolBody`'s `.ok` path). -/
theorem call_tool_non2xx_yields_error_envelope (backend : Backend)
    (name : String) (arguments : List (String × JValue))
    (hname : name ∈ toolNames)
    (hb : ∀ req : HttpRequest, ∃ status : Nat, ∃ body : Except String JValue,
      backend req = .resp status body ∧ is2xx status = false) :
    ∃ msg : String, msg ≠ "" ∧
      (callToolBody backend name arguments).1 = .ok (errEnv msg) := by
  simp only [toolNames, List.mem_cons, List.not_mem_nil, or_false] at hname
  rcases hname with h | h | h | h | h <;> subst h
  · obtain ⟨s, b, hreq, h2⟩ := hb ⟨"GET", API_BASE_URL ++
      "/api/products/search/" ++ pyStr (pyGet arguments "search_term" JValue.null),
      [("language", pyGet arguments "language" (JValue.str "fr"))], none⟩
    refine ⟨statusErrorMsg s (API_BASE_URL ++ "/api/products/search/" ++
      pyStr (pyGet arguments "search_term" JValue.null)),
      statusErrorMsg_ne_empty s _, ?_⟩
    simp [callToolBody, _search_products, httpFetch, hreq, h2]
  · obtain ⟨s, b, hreq, h2⟩ := hb ⟨"GET", API_BASE_URL ++
      "/api/stock/check/" ++ pyStr (pyGet arguments "product_id" JValue.null),
      [("language", pyGet arguments "language" (JValue.str "fr"))], none⟩
    refine ⟨statusErrorMsg s (API_BASE_URL ++ "/api/stock/check/" ++
      pyStr (pyGet arguments "product_id" JValue.null)),
      statusErrorMsg_ne_empty s _, ?_⟩
    simp [callToolBody, _check_stock, httpFetch, hreq, h2]
  · obtain ⟨s, b, hreq, h2⟩ := hb ⟨"GET", API_BASE_URL ++ "/api/products",
      [("active_only", pyGet arguments "active_only" (JValue.bool true))], none⟩
    refine ⟨statusErrorMsg s (API_BASE_URL ++ "/api/products"),
      statusErrorMsg_ne_empty s _, ?_⟩
    simp [callToolBody, _get_all_products, httpFetch, hreq, h2]
  · obtain ⟨s, b, hreq, h2⟩ := hb ⟨"POST", API_BASE_URL ++ "/api/orders",
      [], some (JValue.obj arguments)⟩
    refine ⟨statusErrorMsg s (API_BASE_URL ++ "/api/orders"),
      statusErrorMsg_ne_empty s _, ?_⟩
    simp [callToolBody, _create_order, httpFetch, hreq, h2]
  · obtain ⟨s, b, hreq, h2⟩ := hb ⟨"GET", API_BASE_URL ++
      "/api/orders/" ++ pyStr (pyGet arguments "customer_phone" JValue.null),
      [("limit", pyGet arguments "limit" (JValue.num 10))], none⟩
    refine ⟨statusErrorMsg s (API_BASE_URL ++ "/api/orders/" ++
      pyStr (pyGet arguments "customer_phone" JValue.null)),
      statusErrorMsg_ne_empty s _, ?_⟩
    simp [callToolBody, _get_customer_history, httpFetch, hreq, h2]

/-- Claim C2, witness: a backend answering everything with HTTP 500 makes a
concrete `search_products` call return a non-empty failure envelope. -/
theorem call_tool_non2xx_yields_error_envelope_witness :
    ∃ msg : String, msg ≠ "" ∧
      (callToolBody (fun _ => HttpOutcome.resp 500 (.ok JValue.null))
        "search_products" [("search_term", JValue.str "coca")]).1 =
        .ok (errEnv msg) :=
  call_tool_non2xx_yields_error_envelope
    (fun _ => HttpOutcome.resp 500 (.ok JValue.null))
    "search_products" [("search_term", JValue.str "coca")]
    (by simp [toolNames])
    (fun req => ⟨500, .ok JValue.null, rfl, by decide⟩)

/-- Claim C5: when the backend answers the search request with HTTP 200 and a
JSON list, `search_products` returns the success envelope echoing the list,
its length, the search term and the language — which is the `language`
argument when present and `"fr"` when absent (the `pyGet` default). -/
theorem search_products_200_list_success_shape (backend : Backend)
    (arguments : List (String × JValue)) (term : JValue) (xs : List JValue)
    (hterm : arguments.lookup "search_term" = some term)
    (hb : backend ⟨"GET", API_BASE_URL ++ "/api/products/search/" ++
        pyStr term,
        [("language", pyGet arguments "language" (JValue.str "fr"))], none⟩ =
      .resp 200 (.ok (JValue.arr xs))) :
    callToolRawEnvelope backend "search_products" arguments =
      JValue.obj [("success", JValue.bool true),
        ("products", JValue.arr xs),
        ("count", JValue.num (xs.length : Int)),
        ("search_term", term),
        ("language", pyGet arguments "language" (JValue.str "fr"))] := by
  have hpg : pyGet arguments "search_term" JValue.null = term := by
    simp [pyGet, hterm]
  simp [callToolRawEnvelope, callToolBody, _search_products, httpFetch,
    hpg, hb, is2xx, listCount]

/-- Claim C5, witness: a concrete call with term `"coca"`, no `language`
argument, and a one-product list body yields the documented envelope with
`count = 1` and `language = "fr"`. -/
theorem search_products_200_list_success_shape_witness :
    callToolRawEnvelope
      (fun _ => HttpOutcome.resp 200
        (.ok (JValue.arr [JValue.obj
          [("id", JValue.num 1), ("name", JValue.str "Coca-Cola")]])))
      "search_products" [("search_term", JValue.str "coca")] =
      JValue.obj [("success", JValue.bool true),
        ("products", JValue.arr [JValue.obj
          [("id", JValue.num 1), ("name", JValue.str "Coca-Cola")]]),
        ("count", JValue.num 1),
        ("search_term", JValue.str "coca"),
        ("language", JValue.str "fr")] :=
  search_products_200_list_success_shape
    (fun _ => HttpOutcome.resp 200
      (.ok (JValue.arr [JValue.obj
        [("id", JValue.num 1), ("name", JValue.str "Coca-Cola")]])))
    [("search_term", JValue.str "coca")] (JValue.str "coca")
    [JValue.obj [("id", JValue.num 1), ("name", JValue.str "Coca-Cola")]]
    rfl rfl

/-- Claim C7: when the catalog fetch fails (the product fetch produced a
failure envelope, or rendering its result raises), reading `eccbc://catalog`
still returns a string — one of the two short French error strings — instead
of raising. -/
theorem catalog_fetch_failure_returns_error_string (backend : Backend)
    (h : (∃ msg, (_get_all_products backend (JValue.bool true)).1 = errEnv msg) ∨
         (∃ e, catalogBody
            (_get_all_products backend (JValue.bool true)).1 = .error e)) :
    ∃ s, (handle_read_resource backend "eccbc://catalog").1 = .ok s ∧
      (s = "Erreur: Impossible de récupérer le catalogue" ∨
       ∃ e, s = "Erreur catalogue: " ++ e) := by
  rcases h with ⟨msg, hmsg⟩ | ⟨e, he⟩
  · have hcb : catalogBody (errEnv msg) =
        .ok "Erreur: Impossible de récupérer le catalogue" := rfl
    refine ⟨"Erreur: Impossible de récupérer le catalogue", ?_, Or.inl rfl⟩
    simp [handle_read_resource, _get_catalog_resource, hmsg, hcb]
  · refine ⟨"Erreur catalogue: " ++ e, ?_, Or.inr ⟨e, rfl⟩⟩
    simp [handle_read_resource, _get_catalog_resource, he]

/-- Claim C7, witness: an unreachable backend (transport exception on every
request) makes the catalog read return the French fetch-failure string. -/
theorem catalog_fetch_failure_returns_error_string_witness :
    ∃ s, (handle_read_resource (fun _ => HttpOutcome.exn "Connection refused")
        "eccbc://catalog").1 = .ok s ∧
      (s = "Erreur: Impossible de récupérer le catalogue" ∨
       ∃ e, s = "Erreur catalogue: " ++ e) :=
  catalog_fetch_failure_returns_error_string
    (fun _ => HttpOutcome.exn "Connection refused")
    (Or.inl ⟨"Connection refused", rfl⟩)

/-- Claim C9: omitting a required argument does not reject the call — the
handler runs with the missing value as `None` and issues the HTTP request
with `"None"` interpolated into the URL path, for both `search_products`
without `search_term` and `get_customer_history` without `customer_phone`. -/
theorem missing_required_argument_interpolated_as_none (backend : Backend)
    (arguments arguments2 : List (String × JValue))
    (h1 : arguments.lookup "search_term" = none)
    (h2 : arguments2.lookup "customer_phone" = none) :
    (handle_call_tool backend "search_products" arguments).2 =
      [⟨"GET", API_BASE_URL ++ "/api/products/search/" ++ "None",
        [("language", pyGet arguments "language" (JValue.str "fr"))], none⟩] ∧
    (handle_call_tool backend "get_customer_history" arguments2).2 =
      [⟨"GET", API_BASE_URL ++ "/api/orders/" ++ "None",
        [("limit", pyGet arguments2 "limit" (JValue.num 10))], none⟩] := by
  have hg1 : pyGet arguments "search_term" JValue.null = JValue.null := by
    simp [pyGet, h1]
  have hg2 : pyGet arguments2 "customer_phone" JValue.null = JValue.null := by
    simp [pyGet, h2]
  constructor
  · simp [handle_call_tool, callToolBody, _search_products, hg1, pyStr]
  · simp [handle_call_tool, callToolBody, _get_customer_history, hg2, pyStr]

/-- Claim C9, witness: calling both tools with an empty argument mapping
issues requests whose URL paths end in `/None`. -/
theorem missing_required_argument_interpolated_as_none_witness :
    (handle_call_tool (fun _ => HttpOutcome.resp 200 (.ok JValue.null))
        "search_products" []).2 =
      [⟨"GET", API_BASE_URL ++ "/api/products/search/" ++ "None",
        [("language", pyGet [] "language" (JValue.str "fr"))], none⟩] ∧
    (handle_call_tool (fun _ => HttpOutcome.resp 200 (.ok JValue.null))
        "get_customer_history" []).2 =
      [⟨"GET", API_BASE_URL ++ "/api/orders/" ++ "None",
        [("limit", pyGet [] "limit" (JValue.num 10))], none⟩] :=
  missing_required_argument_interpolated_as_none
    (fun _ => HttpOutcome.resp 200 (.ok JValue.null)) [] [] rfl rfl

/-- Claim C10: on HTTP 200 with a non-list JSON body, `search_products`
still succeeds with `count = 0`, while `get_all_products` applies `len` to
the body directly, so a body without a length (a number, boolean or null)
turns the 2xx response into a failure envelope. -/
theorem nonlist_body_search_succeeds_get_all_fails
    (backend backend2 : Backend) (term lang active v w : JValue)
    (hv : isList v = false) (hw : pyLen w = none)
    (hb : backend ⟨"GET", API_BASE_URL ++ "/api/products/search/" ++
        pyStr term, [("language", lang)], none⟩ = .resp 200 (.ok v))
    (hb2 : backend2 ⟨"GET", API_BASE_URL ++ "/api/products",
        [("active_only", active)], none⟩ = .resp 200 (.ok w)) :
    (_search_products backend term lang).1 =
      JValue.obj [("success", JValue.bool true), ("products", v),
        ("count", JValue.num 0), ("search_term", term), ("language", lang)] ∧
    (_get_all_products backend2 active).1 =
      errEnv ("object of type " ++ pyTypeName w ++ " has no len()") := by
  constructor
  · simp [_search_products, httpFetch, hb, is2xx, listCount_of_not_list hv]
  · simp [_get_all_products, httpFetch, hb2, is2xx, hw]

/-- Claim C10, witness: with a numeric body `7` for the search and a boolean
body `true` for the product listing, the search call succeeds with count 0
and the listing call fails despite the 200 status. -/
theorem nonlist_body_search_succeeds_get_all_fails_witness :
    (_search_products (fun _ => HttpOutcome.resp 200 (.ok (JValue.num 7)))
        (JValue.str "coca") (JValue.str "fr")).1 =
      JValue.obj [("success", JValue.bool true), ("products", JValue.num 7),
        ("count", JValue.num 0), ("search_term", JValue.str "coca"),
        ("language", JValue.str "fr")] ∧
    (_get_all_products (fun _ => HttpOutcome.resp 200 (.ok (JValue.bool true)))
        (JValue.bool true)).1 =
      errEnv ("object of type " ++ pyTypeName (JValue.bool true) ++
        " has no len()") :=
  nonlist_body_search_succeeds_get_all_fails
    (fun _ => HttpOutcome.resp 200 (.ok (JValue.num 7)))
    (fun _ => HttpOutcome.resp 200 (.ok (JValue.bool true)))
    (JValue.str "coca") (JValue.str "fr") (JValue.bool true)
    (JValue.num 7) (JValue.bool true) rfl rfl rfl rfl
